import Mathlib

/-!
Shallow embedding of the NightOfFullMoon controller core
(`game_context.py`, `states/combat.py`, `states/map_selection.py`,
`states/tavern.py`).

Conventions used throughout:
* Python `Optional[T]` values are `Option T`; Python exceptions are `PyErr`
  values returned through `Except`/`Option`-shaped results.
* External effects (screen capture, OCR, the LLM round-trip, monitor
  queries) are supplied as explicit oracle inputs, since the core only
  consumes their results.
* Python float arithmetic on relative coordinates is modelled with `ℚ`;
  `int(x)` is truncation toward zero (`py_int`).
-/

/-- Python exception classes that the embedded code can raise. -/
inductive PyErr where
  | typeError
  | valueError
  | attributeError
  | keyError
  deriving DecidableEq, Repr

/-- The concrete `GameState` subclasses of the repository
(`states/*.py`); `transition_to` replaces one of these by another. -/
inductive StateTag where
  | initialization
  | mapSelection
  | combat
  | shop
  | tavern
  | blacksmith
  | chest
  | fairyBlessing
  | dialogueReward
  | skill
  | upgrade
  | unknownEvent
  deriving DecidableEq, Repr

/-- One `{"role": ..., "content": ...}` chat-history entry. -/
abbrev HistEntry := String × String

/-- A node descriptor as stored by `set_last_selected_node`: the OCR
index (1-based) and the recognized text.  The pixel bounding box and
centre produced by `recognize_nodes_in_relative_roi` do not influence
any control flow modelled here and are omitted. -/
structure NodeInfo where
  index : Int
  text : String
  deriving DecidableEq, Repr

/-- The mutable portion of `GameContext` that the embedded operations
touch: the active state object, the two chat histories and the last
selected map node. -/
structure Ctx where
  current : StateTag
  mapHistory : List HistEntry
  combatHistory : List HistEntry
  lastSelectedNode : Option NodeInfo
  deriving DecidableEq, Repr

/-- A fresh context in `CombatState`, with empty histories. -/
def ctxCombat : Ctx :=
  { current := StateTag.combat, mapHistory := [], combatHistory := [],
    lastSelectedNode := none }

/-- A fresh context in `MapSelectionState`, with empty histories. -/
def ctxMap : Ctx :=
  { current := StateTag.mapSelection, mapHistory := [], combatHistory := [],
    lastSelectedNode := none }

/-- `GameContext._get_history_list`: returns the list for a known
history type and `None` (after a warning) otherwise. -/
def get_history_list (t : String) (ctx : Ctx) : Option (List HistEntry) :=
  if t = "map" then some ctx.mapHistory
  else if t = "combat" then some ctx.combatHistory
  else none

/-- `GameContext.add_to_history`: appends one `{role, content}` record to
the named history; an unknown history type is a no-op. -/
def add_to_history (t role content : String) (ctx : Ctx) : Ctx :=
  if t = "map" then
    { ctx with mapHistory := ctx.mapHistory ++ [(role, content)] }
  else if t = "combat" then
    { ctx with combatHistory := ctx.combatHistory ++ [(role, content)] }
  else ctx

/-- `GameContext.get_history`: the named history, or `[]` for an unknown
type. -/
def get_history (t : String) (ctx : Ctx) : List HistEntry :=
  (get_history_list t ctx).getD []

/-- `GameContext.transition_to`: replaces the active state (the warning
on a same-variant transition does not block the replacement). -/
def transition_to (ctx : Ctx) (s : StateTag) : Ctx :=
  { ctx with current := s }

/-- `GameContext.request`: delegates to the active state object and
catches every exception the handler raises (the `except` branch only
logs; the commented-out error-state transition is not active).  A
handler is a per-state function that either finishes with an updated
context or raises. -/
def request (handlers : StateTag → Ctx → Except PyErr Ctx) (ctx : Ctx) : Ctx :=
  match handlers ctx.current ctx with
  | Except.ok ctx2 => ctx2
  | Except.error _ => ctx

/-! ### String helpers mirroring the Python string operations used -/

/-- Whitespace stripped by Python `str.strip()`. -/
def pyIsSpace (c : Char) : Bool :=
  c = ' ' ∨ c = '\t' ∨ c = '\n' ∨ c = '\r' ∨ c = '\x0b' ∨ c = '\x0c'

/-- Python `str.strip()` on a character list. -/
def pyStripChars (cs : List Char) : List Char :=
  ((cs.dropWhile pyIsSpace).reverse.dropWhile pyIsSpace).reverse

/-- Python `str.strip()`. -/
def pyStrip (s : String) : String :=
  String.mk (pyStripChars s.toList)

/-- Does `pat` occur at the head of `s`? -/
def leadMatches : List Char → List Char → Bool
  | [], _ => true
  | _ :: _, [] => false
  | a :: as, b :: bs => a = b && leadMatches as bs

/-- Index of the first occurrence of `pat` in `s`, if any (the substring
search underlying `re.search` on a literal and Python `in`). -/
def findSub (pat : List Char) : List Char → Option Nat
  | [] => if pat = [] then some 0 else none
  | s@(_ :: tl) =>
    if leadMatches pat s then some 0
    else (findSub pat tl).map (· + 1)

/-- Python `sub in s`. -/
def pyContains (s sub : String) : Bool :=
  (findSub sub.toList s.toList).isSome

/-- `re.search(openT + "(.*?)" + closeT, s, re.DOTALL)`: the leftmost
occurrence of the opening tag, lazily extended to the first closing tag
after it.  (If no closing tag follows the first opening tag, none
follows any later one either, so the pattern cannot match at all.) -/
def extractTagged (openT closeT : List Char) (s : List Char) : Option (List Char) :=
  match findSub openT s with
  | none => none
  | some i =>
    let rest := s.drop (i + openT.length)
    match findSub closeT rest with
    | some j => some (rest.take j)
    | none => none

/-- The `<choice>...</choice>` payload of an LLM response, stripped. -/
def extractChoice (s : String) : Option String :=
  (extractTagged "<choice>".toList "</choice>".toList s.toList).map
    (fun cs => String.mk (pyStripChars cs))

/-- The `<chat>...</chat>` payload of an LLM response, stripped. -/
def extractChat (s : String) : Option String :=
  (extractTagged "<chat>".toList "</chat>".toList s.toList).map
    (fun cs => String.mk (pyStripChars cs))

/-! ### `GameContext.ask_llm` -/

/-- Result of `ask_llm`: the context after the history updates, the
`<choice>` payload returned to the caller, and the `<chat>` payload
passed to `handle_chat_message` (which only logs it). -/
structure AskLlmOut where
  ctx : Ctx
  choice : Option String
  chat : Option String
  deriving DecidableEq, Repr

/-- `GameContext.ask_llm`.  `fullResponse` is the raw text returned by
`LLMClient.generate` (`none` when the call fails).  The full
prompt/response pair is appended to the named history only when a
response was obtained and a (truthy) history type was given; the
response is then parsed for `<choice>` and `<chat>` tags independently,
the chat payload is dispatched and only the choice payload is
returned. -/
def ask_llm (ctx : Ctx) (prompt : String) (historyType : Option String)
    (fullResponse : Option String) : AskLlmOut :=
  match fullResponse with
  | none => { ctx := ctx, choice := none, chat := none }
  | some r =>
    let ctx1 :=
      match historyType with
      | some t =>
        if t ≠ "" then
          add_to_history t "assistant" r (add_to_history t "user" prompt ctx)
        else ctx
      | none => ctx
    { ctx := ctx1,
      choice := if r ≠ "" then extractChoice r else none,
      chat := if r ≠ "" then extractChat r else none }

/-! ### Integer parsing and string sorting (Python `int(...)`, `sorted(...)`) -/

/-- Accumulate a decimal digit string; fails on any non-digit. -/
def parseDigitsAux : List Char → Nat → Option Nat
  | [], acc => some acc
  | c :: tl, acc =>
    if c.isDigit then parseDigitsAux tl (acc * 10 + (c.toNat - '0'.toNat))
    else none

/-- A non-empty all-digit string, as a number. -/
def parseDigits (cs : List Char) : Option Nat :=
  if cs = [] then none else parseDigitsAux cs 0

/-- Python `int(s)` on a decimal string: surrounding whitespace and one
optional sign are allowed, anything else raises `ValueError` (here:
`none`). -/
def py_int_of_string (s : String) : Option Int :=
  match pyStripChars s.toList with
  | '+' :: rest => (parseDigits rest).map Int.ofNat
  | '-' :: rest => (parseDigits rest).map (fun n => -(n : Int))
  | cs => (parseDigits cs).map Int.ofNat

/-- Code-point lexicographic `<` on strings, the order Python's
`sorted` uses. -/
def charListLt : List Char → List Char → Bool
  | [], [] => false
  | [], _ :: _ => true
  | _ :: _, [] => false
  | a :: as, b :: bs =>
    if a.toNat < b.toNat then true
    else if a.toNat = b.toNat then charListLt as bs
    else false

/-- `a ≤ b` in Python string order. -/
def pyStrLe (a b : String) : Bool :=
  !(charListLt b.toList a.toList)

/-- Insert into a `pyStrLe`-sorted list. -/
def insertSorted (x : String) : List String → List String
  | [] => [x]
  | y :: ys => if pyStrLe x y then x :: y :: ys else y :: insertSorted x ys

/-- Python `sorted(...)` on strings. -/
def pySort : List String → List String
  | [] => []
  | x :: xs => insertSorted x (pySort xs)

/-! ### `MapSelectionState` (`states/map_selection.py`) -/

/-- `MapSelectionState._determine_next_state_from_node_text`: the
label→state lookup; any label not explicitly listed defaults to
`CombatState`. -/
def determine_next_state_from_node_text (t : String) : StateTag :=
  if t = "仙女祝福" then StateTag.fairyBlessing
  else if t = "铁匠铺" then StateTag.blacksmith
  else if t = "老猫商店" then StateTag.shop
  else if t = "忘忧酒馆" then StateTag.tavern
  else if t = "害羞的宝箱" then StateTag.chest
  else StateTag.combat

/-- Oracle inputs consumed by one `MapSelectionState.handle` step.
`recognizedNodes` is the node list from
`recognize_nodes_in_relative_roi`; `renderedPrompt` stands for the
`str.format_map` result on the `map_selection` template (string
substitution by the Python standard library), `templateFormatOk` is
false when that call raises `KeyError`; `llmRaw` is the raw
`LLMClient.generate` response; `clickCoords` is the result of
`_calculate_absolute_click_coords` (screen-dimension/monitor float
arithmetic whose value never influences the state transition). -/
structure MapEnv where
  recognizedNodes : Option (List NodeInfo)
  template : Option String
  templateFormatOk : Bool
  renderedPrompt : String
  llmRaw : Option String
  clickCoords : Option (Int × Int)

/-- `MapSelectionState._handle_dynamic_map_selection` (the body of
`handle`): recognize nodes, ask the LLM (through `ask_llm`, topic
`map`), parse the decision as an index, store the chosen node, click,
apply the special-label shortcuts and finally transition via the
label→state lookup.  Every early-`return` path leaves the active state
unchanged. -/
def map_selection_handle (env : MapEnv) (ctx : Ctx) : Ctx :=
  match env.recognizedNodes with
  | none => ctx
  | some nodes =>
    if nodes = [] then ctx
    else
      match env.template with
      | none => ctx
      | some _ =>
        if ¬ env.templateFormatOk then ctx
        else
          let out := ask_llm ctx env.renderedPrompt (some "map") env.llmRaw
          match out.choice with
          | none => out.ctx
          | some dec =>
            match py_int_of_string (pyStrip dec) with
            | none => out.ctx
            | some idx =>
              match nodes.find? (fun n => n.index = idx) with
              | none => out.ctx
              | some chosen =>
                let ctx2 := { out.ctx with lastSelectedNode := some chosen }
                match env.clickCoords with
                | none => ctx2
                | some _ =>
                  if chosen.text = "下个路口" then
                    transition_to ctx2 StateTag.mapSelection
                  else if chosen.text = "绷带" then
                    transition_to ctx2 StateTag.mapSelection
                  else if chosen.text = "尾页" then
                    transition_to ctx2 StateTag.mapSelection
                  else
                    transition_to ctx2
                      (determine_next_state_from_node_text chosen.text)

/-! ### `TavernState._recognize_cards_in_scrollable_area`
(`states/tavern.py`)

One *scan* of the grid OCRs every visible cell
(`recognize_text_in_relative_roi` per cell); a scan is therefore
represented by the list of per-cell OCR results, and the whole scroll
session by a sequence of scans `env : ℕ → List (Option String)` (the
`n`-th scan performed during the session reads `env n`). -/

/-- The per-cell cleaning of the scanner: a truthy OCR result is
stripped, a trailing rank marker `+` removed (and stripped again), and
labels of length ≤ 1 discarded. -/
def cleanCardName (txt : String) : Option String :=
  let c := pyStrip txt
  let c := if c.toList.getLast? = some '+' then
             String.mk (pyStripChars c.toList.dropLast)
           else c
  if 1 < c.length then some c else none

/-- The label set produced by one scan of the grid: clean every truthy
cell result and accumulate into a (insertion-ordered, duplicate-free)
set. -/
def scanSet (cells : List (Option String)) : List String :=
  cells.foldl
    (fun acc cell =>
      match cell with
      | none => acc
      | some txt =>
        if txt ≠ "" then
          match cleanCardName txt with
          | some name => if name ∈ acc then acc else acc ++ [name]
          | none => acc
        else acc)
    []

/-- `current_scan_names - all_card_names` (Python set difference). -/
def listDiff (cur acc : List String) : List String :=
  cur.filter (fun x => decide (x ∉ acc))

/-- The `while scroll_count < max_scrolls` loop of
`_recognize_cards_in_scrollable_area`, with `fuel = max_scrolls -
scroll_count` as the structural measure.  Each iteration scans once; if
nothing new was found and this is not the first iteration, it scrolls
and scans once more to confirm the bottom of the list, stopping when
the confirmation scan also finds nothing new.  Returns the accumulated
label set together with the total number of scans performed. -/
def scrollLoop (env : Nat → List (Option String)) :
    Nat → Nat → Nat → List String → List String × Nat
  | 0, _, scanIdx, acc => (acc, scanIdx)
  | fuel + 1, scrollCount, scanIdx, acc =>
    let cur := scanSet (env scanIdx)
    let newly := listDiff cur acc
    if newly = [] ∧ 0 < scrollCount then
      let fin := scanSet (env (scanIdx + 1))
      let newlyAfter := listDiff fin acc
      if newlyAfter = [] then (acc, scanIdx + 2)
      else scrollLoop env fuel (scrollCount + 1) (scanIdx + 2) (acc ++ newlyAfter)
    else
      let acc2 := if newly ≠ [] then acc ++ newly
                  else if scrollCount = 0 then acc ++ newly
                  else acc
      scrollLoop env fuel (scrollCount + 1) (scanIdx + 1) acc2

/-- `TavernState._recognize_cards_in_scrollable_area`: run the scroll
loop from a fresh state and return `sorted(list(all_card_names))`
together with the number of scans performed. -/
def recognize_cards_in_scrollable_area (env : Nat → List (Option String))
    (maxScrolls : Nat) : List String × Nat :=
  let r := scrollLoop env maxScrolls 0 0 []
  (pySort r.1, r.2)

/-! ### `CombatState` (`states/combat.py`) -/

/-- One memory snapshot as returned by `BasicDataReader.read_data`
restricted to the keys the combat handler reads; a missing key makes
`dict.get` fall back to the handler's default. -/
structure GameData where
  c_currentHP : Option Int
  c_maxHP : Option Int
  e_currentHP : Option Int
  e_maxHP : Option Int
  c_actionPoints : Option Int
  deriving DecidableEq, Repr

/-- Python `dict.get(key, default)`. -/
def pyGet (v : Option Int) (default : Int) : Int :=
  v.getD default

/-- A BGR colour triple. -/
abbrev BGR := Int × Int × Int

/-- `CombatState._is_color_close` for two present colours: componentwise
distance within the tolerance. -/
def is_color_close (c1 c2 : BGR) (tol : Int) : Bool :=
  (c1.1 - c2.1).natAbs ≤ tol.natAbs ∧
  (c1.2.1 - c2.2.1).natAbs ≤ tol.natAbs ∧
  (c1.2.2 - c2.2.2).natAbs ≤ tol.natAbs

/-- `PLAYER_TURN_COLOR_BGR`. -/
def playerTurnColor : BGR := (52, 102, 79)

/-- `ENEMY_TURN_COLOR_BGR`. -/
def enemyTurnColor : BGR := (89, 89, 89)

/-- Does the text contain a CJK unified ideograph
(`re.search(r'[一-鿿]', text)`)? -/
def hasChinese (s : String) : Bool :=
  s.toList.any (fun c => 0x4e00 ≤ c.toNat ∧ c.toNat ≤ 0x9fff)

/-- Python `str.isdigit` restricted to ASCII decimal digits (the only
digits the OCR produces here). -/
def pyIsDigitStr (s : String) : Bool :=
  s ≠ "" ∧ s.toList.all Char.isDigit

/-- A recognized hand card: `{"name": ..., "cost": ..., "index": ...}`
(the index is the running counter). -/
structure HandCard where
  name : String
  cost : Int
  index : Nat
  deriving DecidableEq, Repr

/-- The fold state of `_recognize_hand`: cards so far, the card name
waiting for its cost, and the index counter. -/
structure HandParse where
  cards : List HandCard
  pending : Option String
  counter : Nat
  deriving DecidableEq, Repr

/-- One step of the token-alternation heuristic of
`CombatState._recognize_hand`: Chinese text starts a new card (flushing
an unpriced predecessor at cost 0); a digit string in the range 0–10
prices the pending card; anything else is ignored. -/
def handStep (st : HandParse) (text : String) : HandParse :=
  let text := pyStrip text
  if text = "" then st
  else if hasChinese text then
    match st.pending with
    | some prev =>
      { cards := st.cards ++ [⟨prev, 0, st.counter⟩],
        pending := some text, counter := st.counter + 1 }
    | none => { st with pending := some text }
  else if pyIsDigitStr text then
    match st.pending with
    | some prev =>
      match py_int_of_string text with
      | some cost =>
        if 0 ≤ cost ∧ cost ≤ 10 then
          { cards := st.cards ++ [⟨prev, cost, st.counter⟩],
            pending := none, counter := st.counter + 1 }
        else st
      | none => st
    | none => st
  else st

/-- `CombatState._recognize_hand` applied to the indexed OCR blocks of
the hand region (already index-sorted, as
`recognize_text_in_relative_roi` returns them): parse the blocks and
flush a final unpriced card at cost 0. -/
def recognize_hand (blocks : List (Nat × String)) : List HandCard :=
  let st := blocks.foldl (fun st b => handStep st b.2) ⟨[], none, 0⟩
  match st.pending with
  | some prev => st.cards ++ [⟨prev, 0, st.counter⟩]
  | none => st.cards

/-- Oracle inputs consumed by one `CombatState.handle` step.
`gameData1`/`gameData2` are the first and (on an all-missing first
read) second memory snapshots, `none` meaning `get_game_data` returned
`None` (in which case the subsequent `game_data.get` attribute access
raises `AttributeError`); `turnPixel` is `get_pixel_color` at
`PLAYER_TURN_CHECK_POINT`; `dialogueText`, `upgradeText` and
`endTurnText` are the OCR texts of the victory/turn probe regions;
`handBlocks` is the indexed OCR result of `HAND_TEXT_ROI`;
`combatPrompt` stands for the formatted `combat_decision` prompt and
`llmRaw` for the raw LLM response to it. -/
structure CombatEnv where
  hasInputSim : Bool
  gameData1 : Option GameData
  gameData2 : Option GameData
  turnPixel : Option BGR
  dialogueText : Option String
  upgradeText : Option String
  endTurnText : Option String
  handBlocks : Option (List (Nat × String))
  combatTemplate : Option String
  combatPrompt : String
  llmRaw : Option String

/-- Outcome of one `CombatState.handle` step: the context as mutated so
far, the exception that escaped the call (if any), and whether the
turn-ownership pixel probe and the hand OCR were performed during the
call. -/
structure CombatOutcome where
  ctx : Ctx
  exn : Option PyErr
  turnPixelSampled : Bool
  handOcrDone : Bool
  deriving DecidableEq, Repr

/-- `CombatState.handle`.  Mirrors the source's order: read the memory
snapshot (retrying once when every HP field is missing), check the
defeat branch (`player_hp == 0`) then the victory branch
(`enemy_hp == 0`), then sample the turn check point's colour, and only
in a player turn OCR the hand and ask the LLM for a decision.  The
defeat branch calls `add_to_history` with two arguments, while the
method's signature requires a history type, a role and a content, so
that call raises `TypeError` before the retry click or any transition
can happen.  The player-turn action execution (card drag / end turn and
the optional forced-discard sub-flow) performs only input actuation and
never transitions, so it leaves the modelled context unchanged beyond
the `ask_llm` history writes. -/
def combat_handle (env : CombatEnv) (ctx : Ctx) : CombatOutcome :=
  if ¬ env.hasInputSim then ⟨ctx, none, false, false⟩
  else
    match env.gameData1 with
    | none => ⟨ctx, some PyErr.attributeError, false, false⟩
    | some gd =>
      let playerHp := pyGet gd.c_currentHP (-1)
      let playerMaxHp := pyGet gd.c_maxHP (-1)
      let enemyHp := pyGet gd.e_currentHP (-1)
      let enemyMaxHp := pyGet gd.e_maxHP (-1)
      if playerHp < 0 ∧ playerMaxHp < 0 ∧ enemyHp < 0 ∧ enemyMaxHp < 0 then
        match env.gameData2 with
        | none => ⟨ctx, some PyErr.attributeError, false, false⟩
        | some gd2 =>
          let p2 := pyGet gd2.c_currentHP (-1)
          let pm2 := pyGet gd2.c_maxHP (-1)
          let e2 := pyGet gd2.e_currentHP (-1)
          let em2 := pyGet gd2.e_maxHP (-1)
          if p2 < 0 ∧ pm2 < 0 ∧ e2 < 0 ∧ em2 < 0 then
            ⟨transition_to ctx StateTag.mapSelection, none, false, false⟩
          else
            ⟨ctx, none, false, false⟩
      else if playerHp = 0 then
        ⟨ctx, some PyErr.typeError, false, false⟩
      else if enemyHp = 0 then
        let ctx := add_to_history "map" "system" "系统提示：战斗已胜利结束。" ctx
        if 5 < (env.dialogueText.getD "").length then
          ⟨transition_to ctx StateTag.dialogueReward, none, false, false⟩
        else if (env.upgradeText.getD "") ≠ "" ∧
            (pyContains (env.upgradeText.getD "") "升级" ∨
             pyContains (env.upgradeText.getD "") "恭喜") then
          ⟨transition_to ctx StateTag.upgrade, none, false, false⟩
        else
          ⟨transition_to ctx StateTag.mapSelection, none, false, false⟩
      else
        let isPlayerTurn :=
          match env.turnPixel with
          | some c =>
            if is_color_close c playerTurnColor 15 then true
            else if is_color_close c enemyTurnColor 15 then false
            else
              match env.endTurnText with
              | some t =>
                pyContains (String.mk (t.toList.filter (· ≠ ' '))) "回合结束"
              | none => false
          | none => false
        if isPlayerTurn = false then ⟨ctx, none, true, false⟩
        else
          let handCards := recognize_hand (env.handBlocks.getD [])
          if handCards = [] then ⟨ctx, none, true, true⟩
          else
            match env.combatTemplate with
            | none => ⟨ctx, none, true, true⟩
            | some _ =>
              let out := ask_llm ctx env.combatPrompt (some "map") env.llmRaw
              ⟨out.ctx, none, true, true⟩

/-! ### Coordinate pipeline and perception façade (`game_context.py`) -/

/-- Python `int(x)` on a rational: truncation toward zero (the numerator
divided by the denominator with Lean's truncating `Int.div`). -/
def py_int (q : ℚ) : Int :=
  Int.tdiv q.num q.den

/-- A captured frame's pixel dimensions (`image.width`,
`image.height`). -/
structure FrameD where
  width : Int
  height : Int
  deriving DecidableEq, Repr

/-- A relative region `(left, top, width, height)` with entries in
`[0, 1]`-style rationals. -/
abbrev Region := ℚ × ℚ × ℚ × ℚ

/-- An absolute pixel crop `(left, top, right, bottom)`. -/
structure RoiBox where
  left : Int
  top : Int
  right : Int
  bottom : Int
  deriving DecidableEq, Repr

/-- The absolute crop computed by `_calculate_absolute_roi` before its
validity check: coordinates converted with `int(...)` and clamped to
the frame bounds. -/
def clampedRoi (img : FrameD) (rc : Region) : RoiBox :=
  let relLeft := rc.1
  let relTop := rc.2.1
  let relWidth := rc.2.2.1
  let relHeight := rc.2.2.2
  let left := py_int ((img.width : ℚ) * relLeft)
  let top := py_int ((img.height : ℚ) * relTop)
  let right := py_int ((img.width : ℚ) * (relLeft + relWidth))
  let bottom := py_int ((img.height : ℚ) * (relTop + relHeight))
  { left := max 0 left, top := max 0 top,
    right := min img.width right, bottom := min img.height bottom }

/-- `GameContext._calculate_absolute_roi`: requires the screen
dimensions to be available, then converts and clamps the relative
region and rejects (returns `None`) any crop whose clamped width or
height is ≤ 0. -/
def calculate_absolute_roi (screenDims : Option (Int × Int)) (img : FrameD)
    (rc : Region) : Option RoiBox :=
  match screenDims with
  | none => none
  | some _ =>
    let box := clampedRoi img rc
    if box.right ≤ box.left ∨ box.bottom ≤ box.top then none
    else some box

/-- Oracle inputs for the perception façade methods.  `frame` is the
`capture_frame` result; `screenDims` the cached monitor dimensions;
`textOcr`, `nodesOcr` and `findOcr` summarise `_ocr_image_region`,
`_ocr_image_region_with_boxes` with its pixel post-processing, and the
in-region text search of `find_text_coordinates_in_relative_roi`
(each returning `none`/`[]` when the OCR engine is missing or fails).
`_crop_image_roi` on a valid box is a total PIL crop and is modelled as
always succeeding. -/
structure PercEnv where
  frame : Option FrameD
  screenDims : Option (Int × Int)
  textOcr : FrameD → RoiBox → Option (String × List (Nat × String))
  nodesOcr : FrameD → RoiBox → Option (List NodeInfo)
  findOcr : FrameD → RoiBox → String → Option (ℚ × ℚ × ℚ × ℚ)

/-- `GameContext.recognize_text_in_relative_roi`: screenshot, absolute
crop, crop, OCR; `(None, None)` as soon as any step fails. -/
def recognize_text_in_relative_roi (env : PercEnv) (rc : Region) :
    Option String × Option (List (Nat × String)) :=
  match env.frame with
  | none => (none, none)
  | some img =>
    match calculate_absolute_roi env.screenDims img rc with
    | none => (none, none)
    | some box =>
      match env.textOcr img box with
      | some (txt, blocks) => (some txt, some blocks)
      | none => (none, none)

/-- `GameContext.recognize_nodes_in_relative_roi`: obtains the region
image via `get_image_in_relative_roi` (screenshot → absolute crop →
crop), then OCRs it with bounding boxes; `(None, None)` when the region
image cannot be produced, `(None, roi)` when no node is recognized. -/
def recognize_nodes_in_relative_roi (env : PercEnv) (rc : Region) :
    Option (List NodeInfo) × Option RoiBox :=
  match env.frame with
  | none => (none, none)
  | some img =>
    match calculate_absolute_roi env.screenDims img rc with
    | none => (none, none)
    | some box =>
      match env.nodesOcr img box with
      | some nodes => (if nodes = [] then none else some nodes, some box)
      | none => (none, some box)

/-- `GameContext.find_text_coordinates_in_relative_roi`: screenshot,
absolute crop, crop, then an OCR search for the exact text; `None` as
soon as any step fails, with an explicit re-check that the cropped
image is non-degenerate. -/
def find_text_coordinates_in_relative_roi (env : PercEnv)
    (textToFind : String) (rc : Region) : Option (ℚ × ℚ × ℚ × ℚ) :=
  match env.frame with
  | none => none
  | some img =>
    match calculate_absolute_roi env.screenDims img rc with
    | none => none
    | some box =>
      if box.right - box.left = 0 ∨ box.bottom - box.top = 0 then none
      else env.findOcr img box textToFind

/-- A captured frame with its pixel contents, as the numpy array
`get_pixel_color` indexes (`screenshot[abs_y, abs_x]` in BGR). -/
structure PixelFrame where
  width : Int
  height : Int
  pixel : Int → Int → BGR

/-- `GameContext.get_pixel_color`: converts the relative coordinates
with `int(relative * dimension)`, bounds-checks both indices against
the frame, and returns the BGR triple only when both indices are in
range. -/
def get_pixel_color (frame : Option PixelFrame) (relX relY : ℚ) :
    Option BGR :=
  match frame with
  | none => none
  | some f =>
    let absX := py_int (relX * (f.width : ℚ))
    let absY := py_int (relY * (f.height : ℚ))
    if 0 ≤ absX ∧ absX < f.width ∧ 0 ≤ absY ∧ absY < f.height then
      some (f.pixel absY absX)
    else none

/-! ## Theorems for the specification claims -/

/-- The map-selection scenario environment: three recognized nodes, a
usable prompt template, the reasoner choosing index `2`, and a
successfully computed click coordinate. -/
def mapScenarioEnv : MapEnv :=
  { recognizedNodes := some [⟨1, "战斗(精英)"⟩, ⟨2, "商店"⟩, ⟨3, "未知事件"⟩],
    template := some "map_selection",
    templateFormatOk := true,
    renderedPrompt := "请选择下一个节点",
    llmRaw := some "<choice>2</choice>",
    clickCoords := some (960, 300) }

/-- C5 (counterexample): with nodes `["战斗(精英)", "商店", "未知事件"]` and
reasoner decision `"2"`, the state machine does *not* transition to
`ShopState`: the chosen label `"商店"` is not one of the explicitly
mapped labels (only `"老猫商店"` maps to the shop), so
`_determine_next_state_from_node_text` falls through to its combat
default. -/
theorem map_selection_shop_scenario_counterexample :
    ¬ (map_selection_handle mapScenarioEnv ctxMap).current = StateTag.shop := by
  decide

/-- C5 (amended): in the same scenario the stored `SelectedNode` has
index 2 as claimed, but the transition goes to `CombatState` (the
lookup's default), not to `ShopState`. -/
theorem map_selection_shop_scenario_amended :
    (map_selection_handle mapScenarioEnv ctxMap).lastSelectedNode
      = some ⟨2, "商店"⟩ ∧
    (map_selection_handle mapScenarioEnv ctxMap).current = StateTag.combat ∧
    (map_selection_handle mapScenarioEnv ctxMap).current ≠ StateTag.shop := by
  refine ⟨by decide, by decide, by decide⟩

/-- The combat scenario input for C4: a snapshot with `c_currentHP = 0`
and otherwise ordinary values, a frame whose turn check point shows the
player-turn colour, and OCR oracles that would succeed if consulted. -/
def combatDefeatEnv : CombatEnv :=
  { hasInputSim := true,
    gameData1 := some ⟨some 0, some 80, some 30, some 30, some 3⟩,
    gameData2 := none,
    turnPixel := some (52, 102, 79),
    dialogueText := some "对话",
    upgradeText := some "升级",
    endTurnText := some "回合结束",
    handBlocks := some [(1, "打击"), (2, "1")],
    combatTemplate := some "combat_decision",
    combatPrompt := "出牌",
    llmRaw := some "<choice>打击</choice>" }

/-- C4: on a snapshot with `c_currentHP = 0` the defeat branch runs
before any turn-ownership pixel probe or hand OCR, as the claim says —
but instead of transitioning to `MapSelectionState` it raises
`TypeError`, because `add_to_history` is invoked with two arguments
(`"system"`, the defeat message) while its signature requires a history
type, a role and a content (the victory branch passes all three).  The
exception escapes `handle()` before the retry click and the transition,
so the context stays in `CombatState`. -/
theorem combat_defeat_branch_raises_typeError :
    (combat_handle combatDefeatEnv ctxCombat).exn = some PyErr.typeError ∧
    (combat_handle combatDefeatEnv ctxCombat).ctx.current = StateTag.combat ∧
    (combat_handle combatDefeatEnv ctxCombat).ctx.current ≠ StateTag.mapSelection ∧
    (combat_handle combatDefeatEnv ctxCombat).turnPixelSampled = false ∧
    (combat_handle combatDefeatEnv ctxCombat).handOcrDone = false := by
  refine ⟨by decide, by decide, by decide, by decide, by decide⟩

/-- The tavern scenario: every scan of the scrollable grid recognizes
exactly the labels `打击` and `防御`. -/
def tavernScenarioScans : Nat → List (Option String) :=
  fun _ => [some "打击", some "防御"]

/-- C6 (counterexample): with two consecutive identical scans of
`{"打击", "防御"}` the scanner does *not* return `["击防", "打击"]` — that
list is not even composed of the recognized labels;
`sorted({"打击", "防御"})` is `["打击", "防御"]`. -/
theorem tavern_scan_scenario_counterexample :
    (recognize_cards_in_scrollable_area tavernScenarioScans 10).1
      ≠ ["击防", "打击"] := by
  decide

/-- C6 (amended): with two consecutive identical scans of
`{"打击", "防御"}` the enumeration stops right after the single
confirmation scroll-and-scan (three scans in total) and returns exactly
`["打击", "防御"]`, sorted in code-point order rather than discovery
order. -/
theorem tavern_scan_scenario_amended :
    recognize_cards_in_scrollable_area tavernScenarioScans 10
      = (["打击", "防御"], 3) := by
  decide

/-- C1: whatever exception the active state's `handle()` raises,
`request` catches it (it is total, returning a context rather than
propagating), the context — and with it the active state — is left
exactly as it was, and the next `request` call therefore dispatches to
the same state again: the failing tick is a no-op. -/
theorem request_catches_and_retries_same_state
    (handlers : StateTag → Ctx → Except PyErr Ctx) (ctx : Ctx) (e : PyErr)
    (h : handlers ctx.current ctx = Except.error e) :
    request handlers ctx = ctx ∧
    (request handlers ctx).current = ctx.current ∧
    handlers (request handlers ctx).current (request handlers ctx)
      = handlers ctx.current ctx := by
  have hr : request handlers ctx = ctx := by
    unfold request
    rw [h]
  exact ⟨hr, by rw [hr], by rw [hr]⟩

/-- C1 (witness): a combat-state handler that always raises leaves a
concrete combat context untouched. -/
theorem request_catches_and_retries_same_state_witness :
    request (fun _ _ => Except.error PyErr.valueError) ctxCombat = ctxCombat ∧
    (request (fun _ _ => Except.error PyErr.valueError) ctxCombat).current
      = ctxCombat.current ∧
    (fun _ _ => Except.error PyErr.valueError : StateTag → Ctx → Except PyErr Ctx)
      (request (fun _ _ => Except.error PyErr.valueError) ctxCombat).current
      (request (fun _ _ => Except.error PyErr.valueError) ctxCombat)
      = (fun _ _ => Except.error PyErr.valueError : StateTag → Ctx → Except PyErr Ctx)
          ctxCombat.current ctxCombat :=
  request_catches_and_retries_same_state
    (fun _ _ => Except.error PyErr.valueError) ctxCombat PyErr.valueError rfl

/-- C2: for a valid history topic (`map` or `combat`), `ask_llm` leaves
the whole context — in particular that topic's history — unchanged when
the reasoner call yields no response, and on a response `r` it appends
exactly one user entry carrying the prompt and one assistant entry
carrying the full response to that topic's history, leaving the other
topic's history unchanged. -/
theorem ask_llm_history_discipline (ctx : Ctx) (prompt : String) (t : String)
    (h : t = "map" ∨ t = "combat") :
    (ask_llm ctx prompt (some t) none).ctx = ctx ∧
    (∀ r : String,
      get_history t (ask_llm ctx prompt (some t) (some r)).ctx
        = get_history t ctx ++ [("user", prompt), ("assistant", r)] ∧
      (∀ u : String, u ≠ t → get_history u (ask_llm ctx prompt (some t) (some r)).ctx
        = get_history u ctx)) := by
  rcases h with h | h <;> subst h <;>
    refine ⟨rfl, fun r => ⟨by simp [ask_llm, add_to_history, get_history,
      get_history_list], fun u hu => ?_⟩⟩ <;>
    · by_cases hm : u = "map" <;> by_cases hc : u = "combat" <;>
        simp_all [ask_llm, add_to_history, get_history, get_history_list]

/-- C2 (witness): the history discipline at the `map` topic, an empty
context, prompt `"p"` and response `"r"`. -/
theorem ask_llm_history_discipline_witness :
    (ask_llm ctxMap "p" (some "map") none).ctx = ctxMap ∧
    get_history "map" (ask_llm ctxMap "p" (some "map") (some "r")).ctx
      = get_history "map" ctxMap ++ [("user", "p"), ("assistant", "r")] ∧
    get_history "combat" (ask_llm ctxMap "p" (some "map") (some "r")).ctx
      = get_history "combat" ctxMap := by
  have h := ask_llm_history_discipline ctxMap "p" "map" (Or.inl rfl)
  exact ⟨h.1, (h.2 "r").1, (h.2 "r").2 "combat" (by decide)⟩

/-- C3: for every reasoner response, the `<choice>` payload `ask_llm`
returns to its caller and the `<chat>` payload it dispatches to
`handle_chat_message` are each computed by their own extractor on the
full response, so the two are independent of each other; concretely,
`"<choice>3</choice><chat>hello</chat>"` yields choice `"3"` and chat
`"hello"`, the reversed tag order yields the same payloads, and the
absence of either tag still lets the other be extracted. -/
theorem ask_llm_extracts_choice_and_chat_independently :
    (∀ (ctx : Ctx) (prompt : String) (ht : Option String) (r : String),
      (ask_llm ctx prompt ht (some r)).choice = extractChoice r ∧
      (ask_llm ctx prompt ht (some r)).chat = extractChat r) ∧
    extractChoice "<choice>3</choice><chat>hello</chat>" = some "3" ∧
    extractChat "<choice>3</choice><chat>hello</chat>" = some "hello" ∧
    extractChoice "<chat>hello</chat><choice>3</choice>" = some "3" ∧
    extractChat "<chat>hello</chat><choice>3</choice>" = some "hello" ∧
    extractChoice "<choice>3</choice>" = some "3" ∧
    extractChat "<choice>3</choice>" = none ∧
    extractChat "<chat>hello</chat>" = some "hello" ∧
    extractChoice "<chat>hello</chat>" = none := by
  refine ⟨fun ctx prompt ht r => ?_,
    by decide, by decide, by decide, by decide,
    by decide, by decide, by decide, by decide⟩
  by_cases hr : r = ""
  · subst hr
    have h1 : extractChoice "" = none := by decide
    have h2 : extractChat "" = none := by decide
    rw [h1, h2]
    exact ⟨by simp [ask_llm], by simp [ask_llm]⟩
  · simp [ask_llm, hr]

/-- C10: `get_pixel_color` on an available frame returns a colour
triple exactly when both truncated indices `int(rel * dimension)` fall
inside `[0, dimension)`; the boundary coordinate `1.0` converts to the
dimension itself, which fails the strict upper bound, so `relative_x =
1.0` (or `relative_y = 1.0`) always yields `None` even though a frame
is available. -/
theorem get_pixel_color_bounds (f : PixelFrame) (relX relY : ℚ) :
    ((get_pixel_color (some f) relX relY).isSome ↔
      (0 ≤ py_int (relX * (f.width : ℚ)) ∧
       py_int (relX * (f.width : ℚ)) < f.width ∧
       0 ≤ py_int (relY * (f.height : ℚ)) ∧
       py_int (relY * (f.height : ℚ)) < f.height)) ∧
    py_int ((1 : ℚ) * (f.width : ℚ)) = f.width ∧
    get_pixel_color (some f) 1 relY = none ∧
    get_pixel_color (some f) relX 1 = none := by
  have hcast : ∀ n : Int, py_int ((n : ℚ)) = n := by
    intro n
    simp [py_int]
  have hint : ∀ n : Int, py_int ((1 : ℚ) * (n : ℚ)) = n := by
    intro n
    rw [one_mul]
    exact hcast n
  refine ⟨?_, hint f.width, ?_, ?_⟩
  · by_cases hcond : (0 ≤ py_int (relX * (f.width : ℚ)) ∧
        py_int (relX * (f.width : ℚ)) < f.width ∧
        0 ≤ py_int (relY * (f.height : ℚ)) ∧
        py_int (relY * (f.height : ℚ)) < f.height)
    · simp [get_pixel_color, hcond]
    · simp [get_pixel_color, hcond]
  · simp [get_pixel_color, hcast, lt_self_iff_false]
  · simp [get_pixel_color, hcast, lt_self_iff_false]

/-- The environment of a degenerate-region perception attempt: a frame
and screen dimensions are available and every recognizer oracle would
succeed if it were consulted. -/
def percScenarioEnv : PercEnv :=
  { frame := some ⟨1920, 1080⟩,
    screenDims := some (1920, 1080),
    textOcr := fun _ _ => some ("文字", [(1, "文字")]),
    nodesOcr := fun _ _ => some [⟨1, "文字"⟩],
    findOcr := fun _ _ _ => some (0, 0, 1, 1) }

/-- A region whose relative width is zero: its crop degenerates for any
frame. -/
def degenerateRegion : Region := (1/2, 1/2, 0, 1/10)

/-- C9: whenever the converted-and-clamped crop of a relative region has
width ≤ 0 or height ≤ 0 on the captured frame, `_calculate_absolute_roi`
rejects it (returns `None`), and each perception façade method built on
it — `recognize_text_in_relative_roi`, `recognize_nodes_in_relative_roi`
and `find_text_coordinates_in_relative_roi` — returns `None`/empty for
that region without consulting the recognizer (the conclusion holds for
every recognizer oracle in `env`) and without raising. -/
theorem degenerate_roi_rejected_and_facades_fail_soft
    (env : PercEnv) (img : FrameD) (rc : Region) (textToFind : String)
    (d : Int × Int) (hf : env.frame = some img)
    (hdim : env.screenDims = some d)
    (hdeg : (clampedRoi img rc).right ≤ (clampedRoi img rc).left ∨
            (clampedRoi img rc).bottom ≤ (clampedRoi img rc).top) :
    calculate_absolute_roi env.screenDims img rc = none ∧
    recognize_text_in_relative_roi env rc = (none, none) ∧
    recognize_nodes_in_relative_roi env rc = (none, none) ∧
    find_text_coordinates_in_relative_roi env textToFind rc = none := by
  have hcalc : calculate_absolute_roi env.screenDims img rc = none := by
    rw [hdim]
    simp [calculate_absolute_roi, hdeg]
  refine ⟨hcalc, ?_, ?_, ?_⟩ <;>
    simp [recognize_text_in_relative_roi, recognize_nodes_in_relative_roi,
      find_text_coordinates_in_relative_roi, hf, hcalc]

/-- C9 (witness): a region of relative width 0 on a 1920×1080 frame is
rejected and all three façade methods fail soft, even though the
recognizer oracles of `percScenarioEnv` would succeed. -/
theorem degenerate_roi_rejected_witness :
    calculate_absolute_roi percScenarioEnv.screenDims ⟨1920, 1080⟩
      degenerateRegion = none ∧
    recognize_text_in_relative_roi percScenarioEnv degenerateRegion
      = (none, none) ∧
    recognize_nodes_in_relative_roi percScenarioEnv degenerateRegion
      = (none, none) ∧
    find_text_coordinates_in_relative_roi percScenarioEnv "打击"
      degenerateRegion = none :=
  degenerate_roi_rejected_and_facades_fail_soft percScenarioEnv ⟨1920, 1080⟩
    degenerateRegion "打击" (1920, 1080) rfl rfl
    (by simp [clampedRoi, py_int, degenerateRegion])

/-- Set difference against the empty accumulator changes nothing. -/
theorem listDiff_nil (l : List String) : listDiff l [] = l := by
  simp [listDiff]

/-- A scan that only repeats already-accumulated labels contributes an
empty difference. -/
theorem listDiff_eq_nil_of_subset {cur acc : List String}
    (h : ∀ x ∈ cur, x ∈ acc) : listDiff cur acc = [] := by
  rw [listDiff, List.filter_eq_nil_iff]
  intro a ha
  simp [h a ha]

/-- The first loop iteration (`scroll_count = 0`) never takes the
confirmation branch: it merges the first scan into the accumulator and
continues. -/
theorem scrollLoop_first_step (env : Nat → List (Option String))
    (fuel scanIdx : Nat) (acc : List String) :
    scrollLoop env (fuel + 1) 0 scanIdx acc
      = scrollLoop env fuel 1 (scanIdx + 1)
          (acc ++ listDiff (scanSet (env scanIdx)) acc) := by
  by_cases h : listDiff (scanSet (env scanIdx)) acc = [] <;>
    simp [scrollLoop, h]

/-- Once past the first iteration, a scan followed by a confirmation
scan that both stay inside the accumulated set stops the loop after
exactly those two scans. -/
theorem scrollLoop_confirm_stop (env : Nat → List (Option String))
    (fuel s scanIdx : Nat) (acc : List String) (hs : 0 < s)
    (h1 : ∀ x ∈ scanSet (env scanIdx), x ∈ acc)
    (h2 : ∀ x ∈ scanSet (env (scanIdx + 1)), x ∈ acc) :
    scrollLoop env (fuel + 1) s scanIdx acc = (acc, scanIdx + 2) := by
  simp [scrollLoop, listDiff_eq_nil_of_subset h1,
    listDiff_eq_nil_of_subset h2, hs]

/-- C7: the scanner's enumeration loop is a total function of its
scroll budget (`scrollLoop` recurses on the remaining budget, so it
always terminates), and whenever no scan ever recognizes a label
outside the first scan's label set — in particular when every scan
returns an already-seen set — the session performs at most
`maxScrolls + 1` scans in total. -/
theorem tavern_enumeration_terminates_within_budget
    (env : Nat → List (Option String)) (maxScrolls : Nat)
    (h : ∀ n, ∀ x ∈ scanSet (env n), x ∈ scanSet (env 0)) :
    (recognize_cards_in_scrollable_area env maxScrolls).2 ≤ maxScrolls + 1 := by
  have key : (scrollLoop env maxScrolls 0 0 []).2 ≤ maxScrolls + 1 := by
    rcases maxScrolls with _ | _ | n
    · simp [scrollLoop]
    · show (scrollLoop env (0 + 1) 0 0 []).2 ≤ 1 + 1
      rw [scrollLoop_first_step]
      simp [scrollLoop]
    · show (scrollLoop env ((n + 1) + 1) 0 0 []).2 ≤ (n + 2) + 1
      rw [scrollLoop_first_step]
      rw [scrollLoop_confirm_stop env n 1 1 _ (by omega)
        (fun x hx => by simpa [listDiff_nil] using h 1 x hx)
        (fun x hx => by simpa [listDiff_nil] using h 2 x hx)]
      omega
  simpa [recognize_cards_in_scrollable_area] using key

/-- C7 (witness): with every scan returning the fixed label set
`{"打击", "防御"}` and the default budget of 10 scrolls, the session
performs at most 11 scans (it performs 3). -/
theorem tavern_enumeration_terminates_witness :
    (recognize_cards_in_scrollable_area tavernScenarioScans 10).2 ≤ 10 + 1 :=
  tavern_enumeration_terminates_within_budget tavernScenarioScans 10
    (fun _ _ hx => hx)

/-- On a static collection every scan returns the same cells, and any
budget of at least one scroll yields the sorted cleaned label set. -/
theorem const_scan_characterization (cells : List (Option String))
    (maxScrolls : Nat) (h : 1 ≤ maxScrolls) :
    (recognize_cards_in_scrollable_area (fun _ => cells) maxScrolls).1
      = pySort (scanSet cells) := by
  have key : (scrollLoop (fun _ => cells) maxScrolls 0 0 []).1
      = scanSet cells := by
    rcases maxScrolls with _ | _ | n
    · omega
    · show (scrollLoop (fun _ => cells) (0 + 1) 0 0 []).1 = scanSet cells
      rw [scrollLoop_first_step]
      simp [scrollLoop, listDiff_nil]
    · show (scrollLoop (fun _ => cells) ((n + 1) + 1) 0 0 []).1 = scanSet cells
      rw [scrollLoop_first_step]
      rw [scrollLoop_confirm_stop (fun _ => cells) n 1 1 _ (by omega)
        (fun x hx => by simpa [listDiff_nil] using hx)
        (fun x hx => by simpa [listDiff_nil] using hx)]
      simp [listDiff_nil]
  simp [recognize_cards_in_scrollable_area, key]

/-- C8: the enumeration is idempotent on a static (non-scrolling)
collection: two runs over an unchanging cell layout — with any
(positive) scroll budgets — return the same sorted label list. -/
theorem tavern_enumeration_idempotent_on_static_list
    (cells : List (Option String)) (m1 m2 : Nat)
    (h1 : 1 ≤ m1) (h2 : 1 ≤ m2) :
    (recognize_cards_in_scrollable_area (fun _ => cells) m1).1
      = (recognize_cards_in_scrollable_area (fun _ => cells) m2).1 := by
  rw [const_scan_characterization cells m1 h1,
    const_scan_characterization cells m2 h2]

/-- C8 (witness): two runs over the static cell layout
`[打击, 防御]` with budgets 10 and 3 return the same sorted list. -/
theorem tavern_enumeration_idempotent_witness :
    (recognize_cards_in_scrollable_area
        (fun _ => [some "打击", some "防御"]) 10).1
      = (recognize_cards_in_scrollable_area
          (fun _ => [some "打击", some "防御"]) 3).1 :=
  tavern_enumeration_idempotent_on_static_list
    [some "打击", some "防御"] 10 3 (by decide) (by decide)
